import Mathlib

/-!
Shallow embedding of `drivers/cpufreq/sc5xx-cpufreq.c`, the cpufreq driver
for ADSP-SC5XX boards, together with theorems settling the specification
claims about it.

Modelling conventions:
* Machine `unsigned int` values are modelled as `Nat`; the C `int` return
  codes are modelled as `Int` (the only values that occur are `0` and
  `-ENODEV = -19`, far from any overflow boundary).
* The platform-conditional macros `MIN_MHZ` / `MAX_MHZ` (either `800`/`1000`
  on SC58X/SC59X platforms or `0`/`0` elsewhere) are passed as explicit
  parameters `MIN_MHZ MAX_MHZ : Nat`.
* The external clock-handle service (`clk_get` / `clk_get_rate`) is modelled
  by `ClkEnv`: whether the lookup of `"sys_clkin0"` yields an `IS_ERR`
  pointer, and the rate the handle reports.
* The memory-mapped `CGU_DIV` register is modelled as an abstract read
  trace `regRead : Nat → Nat`, giving the value returned by the n-th
  `readl` executed during a call.  The source's `while(!readl(cgu_div))`
  loop is unbounded, so the embedding carries an explicit `fuel` bound and
  returns `none` when the fuel is exhausted, i.e. when the C loop would
  still be spinning after `fuel` reads.
* Side effects relevant to the claims are counted in the result record
  `EffOut`: `readl` calls, `ndelay` sleeps inside the wait loop, register
  writes (`writel`; the source contains none — the `clk_set_rate` call is
  commented out), and `clk_get` lookups.
* Logging (`printk`) is out of scope and not modelled.
-/

/-- Mask of the CGU_DIV update-in-progress bit (bit 14). -/
def CGU_DIV_UPDT_MASK : Nat := 0x4000

/-- Mask of the CGU_DIV divisor-select field (bits 0–3). -/
def CGU_DIV_CSEL_MASK : Nat := 0x000F

/-- Processor transition latency in nanoseconds (the per-iteration delay of
the wait loop). -/
def TRANSITION_LATENCY_NS : Nat := 50000

/-- Linux `CPUFREQ_TABLE_END` sentinel: `~1` as a 32-bit unsigned value. -/
def CPUFREQ_TABLE_END : Nat := 4294967294

/-- Linux `ENODEV` errno. -/
def ENODEV : Int := 19

/-- Linux `IS_ERR_VALUE(x)`: true exactly when the value, cast to
`unsigned long`, lies in the last-page error range, i.e. for an `int` in
`[-4095, -1]`. -/
def IS_ERR_VALUE (e : Int) : Bool :=
  decide (-4095 ≤ e ∧ e < 0)

/-- Outcome of the external clock-handle service for the `"sys_clkin0"`
lookup used throughout the driver. -/
structure ClkEnv where
  /-- whether `IS_ERR(clk_get(NULL, "sys_clkin0"))` holds -/
  clkIsErr : Bool
  /-- the value `clk_get_rate` reports for the handle -/
  clkRate : Nat
deriving Repr, DecidableEq

/-- One row of `struct cpufreq_frequency_table` (only the fields the driver
uses).  `driver_data` is written as `-1` in the terminator row of the
source, so it is modelled as `Int`. -/
structure cpufreq_frequency_table where
  frequency : Nat
  driver_data : Int
deriving Repr, DecidableEq, Inhabited

/-- Side effects and return value of a driver call, as counted by the
embedding. -/
structure EffOut where
  /-- the C `int` return value -/
  ret : Int
  /-- number of `readl(cgu_div)` executions -/
  regReads : Nat
  /-- number of `ndelay` sleeps inside the wait loop -/
  delays : Nat
  /-- number of register writes (the source performs none) -/
  regWrites : Nat
  /-- number of `clk_get` lookups -/
  clkGets : Nat
deriving Repr, DecidableEq, Inhabited

/-- Embedding of `sc5xx_get_cpu_freq`: look up the `"sys_clkin0"` clock; on
`IS_ERR` return `0`, otherwise return `clk_get_rate` of the handle.  (The
source also `printk`s the local `core_clk_rate` before assigning it; that
uninitialized value flows only into the log, never into the return value,
so it does not appear here.) -/
def sc5xx_get_cpu_freq (env : ClkEnv) : Nat :=
  if env.clkIsErr then 0
  else env.clkRate

/-- Embedding of the static table `sc5xx_frequency_table[]`: a max entry,
a min entry, and the `CPUFREQ_TABLE_END` terminator with `driver_data = -1`. -/
def sc5xx_frequency_table (MIN_MHZ MAX_MHZ : Nat) : List cpufreq_frequency_table :=
  [⟨MAX_MHZ * 1000, 1⟩,
   ⟨MIN_MHZ * 1000, 0⟩,
   ⟨CPUFREQ_TABLE_END, -1⟩]

/-- The head entry's `driver_data` read as the C `unsigned int`
`max_freq_nodes`; per the table convention it is the maximum valid index. -/
def max_valid_index (MIN_MHZ MAX_MHZ : Nat) : Nat :=
  (((sc5xx_frequency_table MIN_MHZ MAX_MHZ).getD 0 default).driver_data).toNat

/-- Embedding of `calc_cclk_freq`: the source ignores its `divisor`
argument and returns `sc5xx_get_cpu_freq()` (the reference clock rate). -/
def calc_cclk_freq (env : ClkEnv) (divisor : Nat) : Nat :=
  let sysclk_freq := sc5xx_get_cpu_freq env
  sysclk_freq

/-- Embedding of `calc_cclk_divisor_for_freq`: the source ignores its
`freq` argument and returns the constant divisor `0`. -/
def calc_cclk_divisor_for_freq (freq : Nat) : Nat :=
  let divisor := 0
  divisor

/-- Index of the first nonzero read in the trace at or after position `i`,
searching at most `fuel` reads: the exit point of the source's
`while(!readl(cgu_div)) ndelay(...)` loop.  `none` means the C loop is
still spinning after `fuel` reads. -/
def waitNonzero (regRead : Nat → Nat) : Nat → Nat → Option Nat
  | 0, _ => none
  | fuel + 1, i => if regRead i = 0 then waitNonzero regRead fuel (i + 1) else some i

/-- Embedding of `set_sc5xx_cpu_freq`.  Read `CGU_DIV`; if the UPDT bit is
set, run the `while(!readl(cgu_div))` wait loop (which exits at the first
nonzero read); read the CSEL field; if `calc_cclk_freq` of it equals the
requested frequency, return `0`; otherwise fall through (`clk_set_rate` is
commented out in the source) and return `err`, which is initialized to `0`
and never reassigned. -/
def set_sc5xx_cpu_freq (env : ClkEnv) (regRead : Nat → Nat) (fuel : Nat)
    (new_freq : Nat) : Option EffOut :=
  let err : Int := 0
  if (regRead 0) &&& CGU_DIV_UPDT_MASK ≠ 0 then
    match waitNonzero regRead fuel 1 with
    | none => none
    | some m =>
      let pll_divisor := (regRead (m + 1)) &&& CGU_DIV_CSEL_MASK
      if calc_cclk_freq env pll_divisor = new_freq then
        some ⟨0, m + 2, m - 1, 0, 1⟩
      else
        some ⟨err, m + 2, m - 1, 0, 1⟩
  else
    let pll_divisor := (regRead 1) &&& CGU_DIV_CSEL_MASK
    if calc_cclk_freq env pll_divisor = new_freq then
      some ⟨0, 2, 0, 0, 1⟩
    else
      some ⟨err, 2, 0, 0, 1⟩

/-- Embedding of `sc5xx_target_index`.  Reject (with return `0` and no
hardware access) any index above the head entry's `driver_data`; read the
target frequency from the table and the current frequency from the clock;
return `-ENODEV` if both are zero; otherwise call `set_sc5xx_cpu_freq` and
propagate its return through the `IS_ERR_VALUE` check. -/
def sc5xx_target_index (MIN_MHZ MAX_MHZ : Nat) (env : ClkEnv)
    (regRead : Nat → Nat) (fuel : Nat) (index : Nat) : Option EffOut :=
  let t := sc5xx_frequency_table MIN_MHZ MAX_MHZ
  let max_freq_nodes := ((t.getD 0 default).driver_data).toNat
  if max_freq_nodes < index then
    some ⟨0, 0, 0, 0, 0⟩
  else
    let new_freq := (t.getD index default).frequency
    let curr_freq := sc5xx_get_cpu_freq env
    if curr_freq = 0 ∧ new_freq = 0 then
      some ⟨-ENODEV, 0, 0, 0, 1⟩
    else
      match set_sc5xx_cpu_freq env regRead fuel new_freq with
      | none => none
      | some o =>
        if IS_ERR_VALUE o.ret then
          some ⟨o.ret, o.regReads, o.delays, o.regWrites, 1 + o.clkGets⟩
        else
          some ⟨0, o.regReads, o.delays, o.regWrites, 1 + o.clkGets⟩

/-- Policy bounds handed to `sc5xx_verify` (the `min`/`max` fields of
`struct cpufreq_policy_data` that the driver touches). -/
structure cpufreq_policy_data where
  pmin : Nat
  pmax : Nat
deriving Repr, DecidableEq

/-- Kernel helper `cpufreq_verify_within_limits` (external to the driver,
modelled from its standard definition in `linux/cpufreq.h`): clamp the
policy's min/max into `[lo, hi]` and restore `min ≤ max`. -/
def cpufreq_verify_within_limits (p : cpufreq_policy_data) (lo hi : Nat) :
    cpufreq_policy_data :=
  let m1 := if p.pmin < lo then lo else p.pmin
  let m2 := if p.pmax < lo then lo else p.pmax
  let m1 := if m1 > hi then hi else m1
  let m2 := if m2 > hi then hi else m2
  let m1 := if m1 > m2 then m2 else m1
  ⟨m1, m2⟩

/-- Embedding of `sc5xx_verify`.  The source assigns `min = MIN_MHZ*1000`
and then immediately `min = MAX_MHZ*1000` (a dead store, mirrored by the
shadowing `let`), so the local `max` is never assigned: `max0` is the
uninitialized value it happens to hold.  Returns `-ENODEV` when both
locals are zero, else clamps the policy to `[min, max]` and returns `0`. -/
def sc5xx_verify (MIN_MHZ MAX_MHZ : Nat) (max0 : Nat)
    (policy : cpufreq_policy_data) : Int × cpufreq_policy_data :=
  let min := MIN_MHZ * 1000
  let min := MAX_MHZ * 1000
  let max := max0
  if min = 0 ∧ max = 0 then
    (-ENODEV, policy)
  else
    (0, cpufreq_verify_within_limits policy min max)

/-! ### Helper lemmas -/

/-- The local `err` of `set_sc5xx_cpu_freq` is initialized to `0` and never
reassigned (the `clk_set_rate` call is commented out), so every terminating
run returns `0`. -/
theorem set_sc5xx_cpu_freq_ret_eq_zero (env : ClkEnv) (regRead : Nat → Nat)
    (fuel new_freq : Nat) :
    ∀ o, set_sc5xx_cpu_freq env regRead fuel new_freq = some o → o.ret = 0 := by
  intro o h
  simp only [set_sc5xx_cpu_freq] at h
  split at h
  · split at h
    · exact absurd h (by simp)
    · split at h <;> (injection h with h2; subst h2; rfl)
  · split at h <;> (injection h with h2; subst h2; rfl)

/-! ### Claim theorems -/

/-- C1 (code evaluation): in a hardware state where the
UPDATE_IN_PROGRESS flag is set and never clears (every read of `CGU_DIV`
returns `0x4000`), `set_sc5xx_cpu_freq` does not poll up to a configured
cap and does not report a timeout: its wait loop (which spins only while
the whole register reads zero) exits after 0 `ndelay` iterations and the
call returns `0`. -/
theorem set_freq_stuck_flag_returns_zero_eval :
    set_sc5xx_cpu_freq ⟨false, 12345⟩ (fun _ => 0x4000) 5 777 =
      some ⟨0, 3, 0, 0, 1⟩ := by
  decide

/-- C2 (code evaluation): the divisor/frequency round-trip fails on the
source: with reference rate 25000 and divisor 2,
`calc_cclk_divisor_for_freq (calc_cclk_freq ...)` returns `0`, not `2`
(`calc_cclk_divisor_for_freq` is a stub that ignores its argument, and
`calc_cclk_freq` ignores the divisor). -/
theorem divisor_roundtrip_stub_eval :
    calc_cclk_divisor_for_freq (calc_cclk_freq ⟨false, 25000⟩ 2) = 0 ∧
    (2 : Nat) ≠ 0 := by
  decide

/-- C3 (code evaluation): on an unsupported platform (`MIN_MHZ = MAX_MHZ
= 0`), `sc5xx_verify` does not return `-ENODEV`: because of the dead-store
typo its local `min` holds `MAX_MHZ*1000 = 0` but the uninitialized local
`max` (here holding junk value 5) makes the both-zero test fail, so the
call clamps the requested range `[700000, 900000]` to `[0, 5]` and returns
success. -/
theorem verify_unsupported_platform_returns_success_eval :
    sc5xx_verify 0 0 5 ⟨700000, 900000⟩ = (0, ⟨5, 5⟩) := by
  decide

/-- C5: the constructed table holds `max_freq` at entry 0 and `min_freq`
at entry `max_valid_index`, the entry after that is the
`CPUFREQ_TABLE_END` terminator with `driver_data = -1`, the `driver_data`
values descend strictly from the head, and the head's `driver_data`
equals (total entries − 2). -/
theorem frequency_table_invariants (MIN_MHZ MAX_MHZ : Nat) :
    ((sc5xx_frequency_table MIN_MHZ MAX_MHZ).getD 0 default).frequency = MAX_MHZ * 1000 ∧
    ((sc5xx_frequency_table MIN_MHZ MAX_MHZ).getD (max_valid_index MIN_MHZ MAX_MHZ)
      default).frequency = MIN_MHZ * 1000 ∧
    (sc5xx_frequency_table MIN_MHZ MAX_MHZ).getD (max_valid_index MIN_MHZ MAX_MHZ + 1)
      default = ⟨CPUFREQ_TABLE_END, -1⟩ ∧
    ((sc5xx_frequency_table MIN_MHZ MAX_MHZ).getD 0 default).driver_data >
      ((sc5xx_frequency_table MIN_MHZ MAX_MHZ).getD 1 default).driver_data ∧
    ((sc5xx_frequency_table MIN_MHZ MAX_MHZ).getD 1 default).driver_data >
      ((sc5xx_frequency_table MIN_MHZ MAX_MHZ).getD 2 default).driver_data ∧
    ((sc5xx_frequency_table MIN_MHZ MAX_MHZ).getD 0 default).driver_data =
      ((sc5xx_frequency_table MIN_MHZ MAX_MHZ).length : Int) - 2 :=
  ⟨rfl, rfl, rfl,
   by show (1 : Int) > 0; decide,
   by show (0 : Int) > -1; decide,
   by show (1 : Int) = (3 : Int) - 2; decide⟩

/-- C8: `calc_cclk_divisor_for_freq` returns the divisor `0` (the
invalid/unset sentinel of the 4-bit divisor field) for every target,
including a target of zero; the definition contains no division at all,
so the divide-by-zero branch is unreachable. -/
theorem divisor_for_zero_target_no_division :
    calc_cclk_divisor_for_freq 0 = 0 ∧
    ∀ freq, calc_cclk_divisor_for_freq freq = 0 :=
  ⟨rfl, fun _ => rfl⟩

/-- C9: for every outcome of the clock-handle lookup,
`sc5xx_get_cpu_freq` returns `0` exactly when the lookup failed
(`IS_ERR`) and the reported rate otherwise; the return value is this and
nothing else (no typed error, no uninitialized value). -/
theorem get_cpu_freq_lookup_contract :
    ∀ (isErr : Bool) (rate : Nat),
      sc5xx_get_cpu_freq ⟨isErr, rate⟩ = if isErr then 0 else rate :=
  fun _ _ => rfl

/-- C4: for every index strictly greater than `max_valid_index` (the head
entry's `driver_data`), `sc5xx_target_index` returns `0` — the documented
no-op success — with no register read, delay, register write or clock
lookup, i.e. no hardware access and no state change. -/
theorem target_index_out_of_range_noop (MIN_MHZ MAX_MHZ : Nat) (env : ClkEnv)
    (regRead : Nat → Nat) (fuel index : Nat)
    (h : max_valid_index MIN_MHZ MAX_MHZ < index) :
    sc5xx_target_index MIN_MHZ MAX_MHZ env regRead fuel index =
      some ⟨0, 0, 0, 0, 0⟩ := by
  have h1 : (((sc5xx_frequency_table MIN_MHZ MAX_MHZ).getD 0
      default).driver_data).toNat < index := h
  simp only [sc5xx_target_index]
  rw [if_pos h1]

/-- Witness for C4 at a concrete input: index 2 is strictly above the
maximum valid index 1. -/
theorem target_index_out_of_range_noop_witness :
    sc5xx_target_index 800 1000 ⟨false, 5⟩ (fun _ => 0) 0 2 =
      some ⟨0, 0, 0, 0, 0⟩ :=
  target_index_out_of_range_noop 800 1000 ⟨false, 5⟩ (fun _ => 0) 0 2 (by decide)

/-- C6: for every valid index, if the current frequency read from the
clock and the target frequency read from the table are both zero,
`sc5xx_target_index` returns `-ENODEV` without attempting a transition
(no register access, only the one clock lookup already performed). -/
theorem target_index_both_zero_enodev (MIN_MHZ MAX_MHZ : Nat) (env : ClkEnv)
    (regRead : Nat → Nat) (fuel index : Nat)
    (hidx : index ≤ max_valid_index MIN_MHZ MAX_MHZ)
    (hcurr : sc5xx_get_cpu_freq env = 0)
    (hnew : ((sc5xx_frequency_table MIN_MHZ MAX_MHZ).getD index
      default).frequency = 0) :
    sc5xx_target_index MIN_MHZ MAX_MHZ env regRead fuel index =
      some ⟨-ENODEV, 0, 0, 0, 1⟩ := by
  have h1 : ¬ ((((sc5xx_frequency_table MIN_MHZ MAX_MHZ).getD 0
      default).driver_data).toNat < index) := Nat.not_lt.mpr hidx
  simp only [sc5xx_target_index]
  rw [if_neg h1, if_pos ⟨hcurr, hnew⟩]

/-- Witness for C6 at a concrete input: unsupported platform (min = max =
0), failed clock lookup, index 0. -/
theorem target_index_both_zero_enodev_witness :
    sc5xx_target_index 0 0 ⟨true, 0⟩ (fun _ => 0) 0 0 =
      some ⟨-ENODEV, 0, 0, 0, 1⟩ :=
  target_index_both_zero_enodev 0 0 ⟨true, 0⟩ (fun _ => 0) 0 0
    (by decide) rfl (by decide)

/-- C7: in every stable hardware state (constant register value `v`) in
which the frequency the code computes from the current DIVISOR_SELECT
field equals the requested target, `set_sc5xx_cpu_freq` returns success
(`0`) having performed zero register writes and zero delay iterations —
the transition is an idempotent no-op that leaves the register unchanged. -/
theorem set_freq_noop_when_freq_matches (env : ClkEnv) (v fuel new_freq : Nat)
    (hfuel : 1 ≤ fuel)
    (hfreq : calc_cclk_freq env (v &&& CGU_DIV_CSEL_MASK) = new_freq) :
    set_sc5xx_cpu_freq env (fun _ => v) fuel new_freq =
      some ⟨0, if v &&& CGU_DIV_UPDT_MASK ≠ 0 then 3 else 2, 0, 0, 1⟩ := by
  obtain ⟨f, rfl⟩ : ∃ f, fuel = f + 1 :=
    ⟨fuel - 1, (Nat.succ_pred_eq_of_pos hfuel).symm⟩
  by_cases hbit : v &&& CGU_DIV_UPDT_MASK ≠ 0
  · have hv : v ≠ 0 := by
      intro h0
      subst h0
      exact hbit (by decide)
    simp only [set_sc5xx_cpu_freq, waitNonzero]
    rw [if_pos hbit, if_neg hv]
    simp only [if_pos hfreq]
    rw [if_pos hbit]
  · simp only [set_sc5xx_cpu_freq]
    rw [if_neg hbit]
    simp only [if_pos hfreq]
    rw [if_neg hbit]

/-- Witness for C7 at a concrete input: register constantly reads 3
(update flag clear, divisor 3), clock rate 500 equals the requested
frequency. -/
theorem set_freq_noop_when_freq_matches_witness :
    set_sc5xx_cpu_freq ⟨false, 500⟩ (fun _ => 3) 1 500 =
      some ⟨0, if 3 &&& CGU_DIV_UPDT_MASK ≠ 0 then 3 else 2, 0, 0, 1⟩ :=
  set_freq_noop_when_freq_matches ⟨false, 500⟩ 3 1 500 (by decide) (by decide)

/-- C10: `set_sc5xx_cpu_freq` returns `0` on every terminating run (its
error variable is initialized to `0` and never reassigned), so the
`IS_ERR_VALUE` propagation path in `sc5xx_target_index` is unreachable
and `sc5xx_target_index` can only return `0` or `-ENODEV` — a transition
never reports a hardware failure to the caller. -/
theorem target_index_returns_zero_or_enodev (MIN_MHZ MAX_MHZ : Nat)
    (env : ClkEnv) (regRead : Nat → Nat) (fuel new_freq index : Nat) :
    (∀ o, set_sc5xx_cpu_freq env regRead fuel new_freq = some o → o.ret = 0) ∧
    (∀ t, sc5xx_target_index MIN_MHZ MAX_MHZ env regRead fuel index = some t →
      t.ret = 0 ∨ t.ret = -ENODEV) := by
  refine ⟨set_sc5xx_cpu_freq_ret_eq_zero env regRead fuel new_freq, ?_⟩
  intro t h
  simp only [sc5xx_target_index] at h
  split at h
  · injection h with h2
    subst h2
    exact Or.inl rfl
  · split at h
    · injection h with h2
      subst h2
      exact Or.inr rfl
    · split at h
      · exact absurd h (by simp)
      · rename_i o ho
        have hz := set_sc5xx_cpu_freq_ret_eq_zero env regRead fuel _ o ho
        rw [hz] at h
        rw [if_neg (by decide : ¬ (IS_ERR_VALUE (0 : Int) = true))] at h
        injection h with h2
        subst h2
        exact Or.inl rfl

/-- Witness for C10 at a concrete input: a full transition attempt on the
supported platform returns `0`. -/
theorem target_index_returns_zero_or_enodev_witness :
    (⟨0, 2, 0, 0, 2⟩ : EffOut).ret = 0 ∨
    (⟨0, 2, 0, 0, 2⟩ : EffOut).ret = -ENODEV :=
  (target_index_returns_zero_or_enodev 800 1000 ⟨false, 5⟩ (fun _ => 0)
    1 77 0).2 ⟨0, 2, 0, 0, 2⟩ (by decide)
